import Mathlib

/-!
Verification development for the `discord-miniapp-framework` repository.

The file embeds, as executable Lean definitions, the parts of the code that
the specification talks about:

* `packages/server/src/app.ts` — the Express server: the `POST /api/token`
  handler (`tokenHandler`), the `GET /api/health` and `GET /api/config`
  handlers, the 404 handler, the global error handler, and the route
  registration order (`dispatch`, including the production-only static /
  SPA-fallback routes).
* `packages/client/src/main.ts` — the client: `setupDiscordSdk` (the
  four-step authentication sequence, modelled as an explicit function of an
  environment recording the outcome of each awaited operation) and the pure
  CDN URL builders `getUserAvatarUrl` / `getGuildIconUrl`.

JSON values are modelled by the inductive `Json`; JavaScript `undefined`
results of a field access are modelled by `Option Json` (`none` = absent /
`undefined`), and `res.json` dropping `undefined`-valued properties (as
`JSON.stringify` does) is modelled where the handler builds its reply.
-/

/-- A JSON value, as produced by `express.json()` / `response.json()`.
`Json.null` is the JSON literal `null`. -/
inductive Json where
  | null : Json
  | bool : Bool → Json
  | num : Int → Json
  | str : String → Json
  | arr : List Json → Json
  | obj : List (String × Json) → Json
  deriving Repr

/-- JavaScript property access `j.k`: defined on objects, `none`
(i.e. `undefined`) on any non-object non-null value.  (On `null` the real
access throws; callers of `Json.get` in this file treat `Json.null`
separately where that matters.) -/
def Json.get (j : Json) (k : String) : Option Json :=
  match j with
  | .obj fields => fields.lookup k
  | _ => none

/-- Server configuration, from `config` in `app.ts` (lines 30–37). -/
structure Config where
  port : Nat
  clientPort : Nat
  clientId : String
  clientSecret : String
  isProduction : Bool
  appName : String
  deriving Repr

/-- An HTTP response sent to the caller: the status set via `res.status`
(200 when `res.json` is used directly) and the JSON body. -/
structure HttpResponse where
  status : Nat
  body : Json
  deriving Repr

/-- A response obtained from `fetch`: the HTTP status and the result of
parsing the body as JSON (`none` when the body is not valid JSON, in which
case `response.json()` rejects). -/
structure FetchResponse where
  status : Nat
  body : Option Json
  deriving Repr

/-- `response.ok` — true iff the status is in the 2xx range. -/
def FetchResponse.ok (r : FetchResponse) : Bool :=
  200 ≤ r.status && r.status < 300

/-- Outcome of a `fetch` call: either a response was received, or the call
itself rejected (DNS failure, connection reset, …) with an error message. -/
inductive FetchOutcome where
  | success : FetchResponse → FetchOutcome
  | throws : String → FetchOutcome
  deriving Repr

/-- JavaScript truthiness test `!code` on a `string | undefined` value:
falsy iff missing or the empty string. -/
def jsFalsyStr : Option String → Bool
  | none => true
  | some s => s == ""

/-- The `URLSearchParams` body of the request the server sends to the
token endpoint of the identity provider (`app.ts` lines 111–116). -/
def providerRequestParams (cfg : Config) (code : String) : List (String × String) :=
  [("client_id", cfg.clientId),
   ("client_secret", cfg.clientSecret),
   ("grant_type", "authorization_code"),
   ("code", code)]

/-- Everything observable about one run of the `POST /api/token` handler:
the response sent to the caller, the form-encoded request sent to the
provider (`none` when no outbound call was made), and the `console.error`
log lines emitted. -/
structure TokenExchange where
  response : HttpResponse
  providerCall : Option (List (String × String))
  logged : List String
  deriving Repr

/-- The success-branch reply `res.json({ access_token: tokenData.access_token })`
(`app.ts` lines 133–135): when the provider body has no `access_token`
property the value is `undefined` and `JSON.stringify` drops the key, so the
reply body is `{}`. -/
def accessTokenReply (tokenData : Json) : Json :=
  match tokenData.get "access_token" with
  | some v => .obj [("access_token", v)]
  | none => .obj []

/-- The `POST /api/token` handler (`app.ts` lines 96–142), as a function of
the `code` field of the request (`none` = absent) and the outcome of the `fetch`
to the provider.  The branches, in source order:

* `!code` → `400 { error: "Authorization code is required" }`, no fetch;
* the fetch rejects → caught → `500` with the fixed generic message, logged;
* `!response.ok` → provider status forwarded with
  `{ error: ..., details: errorData }` where `errorData` is the parsed body
  or `{}` when parsing fails (`.catch(() => ({}))`), logged;
* `response.ok` but the body is not valid JSON → `response.json()` rejects
  → caught → `500` generic, logged;
* `response.ok` and the parsed body is `null` → the property access
  `tokenData.access_token` throws → caught → `500` generic, logged;
* otherwise → `200` with `accessTokenReply`. -/
def tokenHandler (cfg : Config) (code : Option String) (fetch : FetchOutcome) :
    TokenExchange :=
  if jsFalsyStr code then
    { response := ⟨400, .obj [("error", .str "Authorization code is required")]⟩
      providerCall := none
      logged := [] }
  else
    let c := code.getD ""
    let call := providerRequestParams cfg c
    match fetch with
    | .throws msg =>
      { response := ⟨500, .obj [("error", .str "Internal server error during token exchange")]⟩
        providerCall := some call
        logged := ["Token exchange error: " ++ msg] }
    | .success r =>
      if r.ok then
        match r.body with
        | none =>
          { response := ⟨500, .obj [("error", .str "Internal server error during token exchange")]⟩
            providerCall := some call
            logged := ["Token exchange error: invalid JSON in provider response"] }
        | some .null =>
          { response := ⟨500, .obj [("error", .str "Internal server error during token exchange")]⟩
            providerCall := some call
            logged := ["Token exchange error: cannot read access_token of null"] }
        | some tokenData =>
          { response := ⟨200, accessTokenReply tokenData⟩
            providerCall := some call
            logged := [] }
      else
        { response := ⟨r.status,
            .obj [("error", .str "Failed to exchange token with Discord"),
                  ("details", r.body.getD (.obj []))]⟩
          providerCall := some call
          logged := ["Discord token exchange failed:"] }

/-- The `GET /api/health` handler (`app.ts` lines 81–87); the timestamp is
produced at request time and passed in here. -/
def healthHandler (cfg : Config) (timestamp : String) : HttpResponse :=
  ⟨200, .obj [("status", .str "ok"),
              ("app", .str cfg.appName),
              ("timestamp", .str timestamp)]⟩

/-- The `GET /api/config` handler (`app.ts` lines 147–152). -/
def configHandler (cfg : Config) : HttpResponse :=
  ⟨200, .obj [("appName", .str cfg.appName),
              ("clientId", .str cfg.clientId)]⟩

/-- The 404 handler (`app.ts` lines 174–176). -/
def notFoundHandler : HttpResponse :=
  ⟨404, .obj [("error", .str "Not found")]⟩

/-- The global error handler (`app.ts` lines 179–184). -/
def globalErrorHandler (cfg : Config) (errMessage : String) : HttpResponse :=
  ⟨500, .obj [("error",
    .str (if cfg.isProduction then "Internal server error" else errMessage))]⟩

/-- HTTP request method, as far as the routes of `app.ts` distinguish them. -/
inductive Method where
  | GET | POST | PUT | DELETE | HEAD
  deriving DecidableEq, Repr

/-- Which registered handler a request reaches.  `staticFile` stands for
`express.static` serving an existing file from the client build;
`spaFallback` is the production-only `app.get('*')` route that sends
`index.html`. -/
inductive Routed where
  | health | token | config | staticFile | spaFallback | notFound
  deriving DecidableEq, Repr

/-- Registration-order route matching of `app.ts`: the three `/api` routes
(lines 81, 96, 147), then — only when `config.isProduction` — the static
middleware and the `app.get('*')` SPA fallback (lines 158–167), and last the
catch-all 404 handler (lines 174–176).  An Express route declared with
`app.get` also answers `HEAD` requests (the router treats `HEAD` as handled
by a `GET` route when no explicit `HEAD` route exists), so `/api/health`,
`/api/config` and the `app.get('*')` fallback all match both `GET` and
`HEAD` here.  `staticHas p` says whether the client build directory
contains a file for path `p` (the static middleware answers `GET`/`HEAD`
and calls `next()` otherwise). -/
def dispatch (isProduction : Bool) (staticHas : String → Bool)
    (m : Method) (p : String) : Routed :=
  if (m = .GET ∨ m = .HEAD) ∧ p = "/api/health" then .health
  else if m = .POST ∧ p = "/api/token" then .token
  else if (m = .GET ∨ m = .HEAD) ∧ p = "/api/config" then .config
  else if isProduction then
    if (m = .GET ∨ m = .HEAD) ∧ staticHas p then .staticFile
    else if m = .GET ∨ m = .HEAD then .spaFallback
    else .notFound
  else .notFound

/-!  Client (`packages/client/src/main.ts`). -/

/-- The user profile captured from `authenticate` (`DiscordUser` interface
in `main.ts`). -/
structure DiscordUserM where
  id : String
  username : String
  discriminator : String
  avatar : Option String
  global_name : Option String
  deriving DecidableEq, Repr

/-- The module-level mutable state of the client (`currentUser`, `accessToken`,
`main.ts` lines 126–127).  `accessToken` holds the JSON value read from the
`access_token` field of the token response (`none` models both the initial
`null` and an `undefined` read). -/
structure ClientState where
  currentUser : Option DiscordUserM
  accessToken : Option Json
  deriving Repr

/-- The environment of one run of `setupDiscordSdk`: the outcome of each
awaited external operation, in the order the sequence performs them. -/
structure SdkEnv where
  readyResult : Except String Unit
  authorizeResult : Except String String
  tokenFetch : FetchOutcome
  authenticateResult : Except String (Option DiscordUserM)
  deriving Repr

/-- What one run of `setupDiscordSdk` produces: the value returned (or the
message of the error thrown), the module state afterwards, and whether the
`authenticate` SDK command was invoked. -/
structure SetupResult where
  result : Except String (Option Json)
  state : ClientState
  authenticateInvoked : Bool
  deriving Repr

/-- `setupDiscordSdk` (`main.ts` lines 133–184) over an initial module
state `st`.  Step order: `ready`, `authorize`, the `POST /api/token` fetch,
then `authenticate`.  Any rejection propagates out of the `async` function
(there is no `try` inside it) leaving the module state untouched.  On a
non-2xx token response the function throws
`"Failed to exchange code for token: " ++ status` before `accessToken` is
assigned.  A 2xx body that parses to JSON `null` also throws — the
destructuring `const \x7b access_token \x7d = await response.json()` fails on
`null` — before the assignment and before `authenticate`.  `auth` being
falsy (modelled `.ok none`) skips the `currentUser` assignment. -/
def setupDiscordSdk (env : SdkEnv) (st : ClientState) : SetupResult :=
  match env.readyResult with
  | .error e => ⟨.error e, st, false⟩
  | .ok _ =>
    match env.authorizeResult with
    | .error e => ⟨.error e, st, false⟩
    | .ok _code =>
      match env.tokenFetch with
      | .throws msg => ⟨.error msg, st, false⟩
      | .success resp =>
        if resp.ok then
          match resp.body with
          | none => ⟨.error "invalid JSON in token response", st, false⟩
          | some .null =>
            ⟨.error "cannot destructure access_token of null", st, false⟩
          | some j =>
            let access_token := j.get "access_token"
            let st1 : ClientState := { st with accessToken := access_token }
            match env.authenticateResult with
            | .error e => ⟨.error e, st1, true⟩
            | .ok none => ⟨.ok access_token, st1, true⟩
            | .ok (some u) => ⟨.ok access_token, { st1 with currentUser := some u }, true⟩
        else
          ⟨.error ("Failed to exchange code for token: " ++ Nat.repr resp.status),
           st, false⟩

/-- `BigInt(s)` for a string: the decimal value when every character is a
digit (`BigInt("")` is `0n`), `none` (a thrown `SyntaxError`) otherwise.
Sign prefixes, whitespace and `0x`/`0o`/`0b` forms do not occur in Discord
user IDs and are not modelled. -/
def parseBigInt (s : String) : Option Nat :=
  if s.data.all Char.isDigit then
    some (s.data.foldl (fun a c => a * 10 + (c.toNat - 48)) 0)
  else none

/-- The default-avatar index `Number(BigInt(userId) % BigInt(5))`
(`main.ts` line 250): an arbitrary-precision modulo; the `Number`
conversion is exact because the value is below 5. -/
def getDefaultAvatarIndex (userId : String) : Option Nat :=
  (parseBigInt userId).map (fun n => n % 5)

/-- `getUserAvatarUrl` (`main.ts` lines 247–254).  The `size` parameter is
`none` when the caller omits it, taking the declared default 128.  The test
`!avatarHash` is JavaScript truthiness, so the empty-string hash also takes
the default-avatar branch.  The result is `none` exactly when the
default-avatar branch throws inside `BigInt` on a non-numeric user ID. -/
def getUserAvatarUrl (userId : String) (avatarHash : Option String)
    (size : Option Nat) : Option String :=
  if jsFalsyStr avatarHash then
    (getDefaultAvatarIndex userId).map (fun defaultIndex =>
      "https://cdn.discordapp.com/embed/avatars/" ++ Nat.repr defaultIndex ++ ".png")
  else
    some ("https://cdn.discordapp.com/avatars/" ++ userId ++ "/" ++
      avatarHash.getD "" ++ ".webp?size=" ++ Nat.repr (size.getD 128))

/-- `getGuildIconUrl` (`main.ts` lines 240–242). -/
def getGuildIconUrl (guildId : String) (iconHash : String)
    (size : Option Nat) : String :=
  "https://cdn.discordapp.com/icons/" ++ guildId ++ "/" ++ iconHash ++
    ".webp?size=" ++ Nat.repr (size.getD 128)

/-!  Substring occurrence, used to state "contains a `size` query
parameter" claims about the built URLs. -/

/-- `startsWithChars n l` — `n` is an initial segment of `l`. -/
def startsWithChars : List Char → List Char → Bool
  | [], _ => true
  | _ :: _, [] => false
  | a :: as, b :: bs => a == b && startsWithChars as bs

/-- `containsChars n l` — `n` occurs contiguously somewhere in `l`. -/
def containsChars (n : List Char) : List Char → Bool
  | [] => startsWithChars n []
  | b :: bs => startsWithChars n (b :: bs) || containsChars n bs

/-- `strContains hay needle` — `needle` occurs as a substring of `hay`. -/
def strContains (hay needle : String) : Bool :=
  containsChars needle.data hay.data

/-- A sample development-mode configuration, used to instantiate claims at
concrete inputs. -/
def cfgEx : Config :=
  { port := 3001, clientPort := 3000, clientId := "cid123",
    clientSecret := "secret456", isProduction := false,
    appName := "Discord Mini App" }

/-!  Helper lemmas about substring occurrence. -/

theorem startsWithChars_append (n l ys : List Char)
    (h : startsWithChars n l = true) : startsWithChars n (l ++ ys) = true := by
  induction n generalizing l with
  | nil => simp [startsWithChars]
  | cons a as ih =>
    cases l with
    | nil => simp [startsWithChars] at h
    | cons b bs =>
      simp only [startsWithChars, Bool.and_eq_true] at h
      simp only [List.cons_append, startsWithChars, Bool.and_eq_true]
      exact ⟨h.1, ih bs h.2⟩

theorem startsWithChars_refl_append (n ys : List Char) :
    startsWithChars n (n ++ ys) = true := by
  induction n with
  | nil => simp [startsWithChars]
  | cons a as ih => simp [startsWithChars, ih]

theorem containsChars_of_startsWithChars (n l : List Char)
    (h : startsWithChars n l = true) : containsChars n l = true := by
  cases l with
  | nil => simpa [containsChars] using h
  | cons b bs => simp [containsChars, h]

theorem containsChars_append_left (n xs ys : List Char)
    (h : containsChars n xs = true) : containsChars n (xs ++ ys) = true := by
  induction xs with
  | nil =>
    simp only [containsChars] at h
    exact containsChars_of_startsWithChars n ys (startsWithChars_append n [] ys h)
  | cons b bs ih =>
    simp only [containsChars, Bool.or_eq_true] at h
    rcases h with h | h
    · exact containsChars_of_startsWithChars n _
        (by simpa [List.cons_append] using startsWithChars_append n (b :: bs) ys h)
    · simp only [List.cons_append, containsChars, Bool.or_eq_true]
      exact Or.inr (ih h)

theorem containsChars_append_right (n xs ys : List Char)
    (h : containsChars n ys = true) : containsChars n (xs ++ ys) = true := by
  induction xs with
  | nil => simpa using h
  | cons b bs ih => simp only [List.cons_append, containsChars, Bool.or_eq_true]; exact Or.inr ih

theorem strContains_append_of_left (a b n : String)
    (h : strContains a n = true) : strContains (a ++ b) n = true := by
  simpa [strContains, String.data_append] using
    containsChars_append_left n.data a.data b.data h

theorem strContains_append_of_right (a b n : String)
    (h : strContains b n = true) : strContains (a ++ b) n = true := by
  simpa [strContains, String.data_append] using
    containsChars_append_right n.data a.data b.data h

/-- Looking up a different key in a one-field object gives `none`. -/
theorem Json.get_single_ne (k q : String) (v : Json) (h : (q == k) = false) :
    (Json.obj [(k, v)]).get q = none := by
  simp [Json.get, List.lookup, h]

/-- C2: a request to `POST /api/token` with a missing or empty `code` field
is answered with status 400 and body
`{ error: "Authorization code is required" }`, and no outbound call to the
identity provider is made (and nothing is logged). -/
theorem C2_missing_code_rejected (cfg : Config) (code : Option String)
    (h : code = none ∨ code = some "") (fetch : FetchOutcome) :
    tokenHandler cfg code fetch =
      ⟨⟨400, Json.obj [("error", Json.str "Authorization code is required")]⟩,
       none, []⟩ := by
  rcases h with h | h <;> subst h <;> rfl

/-- Witness for C2 at the empty request body `{}` (no `code` field). -/
theorem C2_missing_code_rejected_witness :
    tokenHandler cfgEx none (.throws "unreachable") =
      ⟨⟨400, Json.obj [("error", Json.str "Authorization code is required")]⟩,
       none, []⟩ :=
  C2_missing_code_rejected cfgEx none (Or.inl rfl) (.throws "unreachable")

/-- C3: when the provider answers with a non-2xx status, the endpoint
forwards exactly that status, with the error payload parsed best-effort
under `details` (an empty object when the payload is unparseable), and the
request completes. -/
theorem C3_provider_error_forwarded (cfg : Config) (code : String)
    (hc : code ≠ "") (r : FetchResponse) (hok : r.ok = false) :
    (tokenHandler cfg (some code) (.success r)).response =
      ⟨r.status,
       Json.obj [("error", Json.str "Failed to exchange token with Discord"),
                 ("details", r.body.getD (Json.obj []))]⟩ := by
  simp [tokenHandler, jsFalsyStr, hc, hok]

/-- Witness for C3: a provider 401 with an unparseable body is forwarded as
status 401 with an empty `details` object. -/
theorem C3_provider_error_forwarded_witness :
    (tokenHandler cfgEx (some "abc") (.success ⟨401, none⟩)).response =
      ⟨401,
       Json.obj [("error", Json.str "Failed to exchange token with Discord"),
                 ("details", Json.obj [])]⟩ :=
  C3_provider_error_forwarded cfgEx "abc" (by decide) ⟨401, none⟩ (by decide)

/-- C4 (amended): when the fetch to the provider throws, the endpoint
answers with the fixed status 500 and the fixed generic message
`"Internal server error during token exchange"` in every environment mode
— the raw error message is never placed in the response by this handler —
and the error is logged server-side. -/
theorem C4_transport_error_fixed_generic (cfg : Config) (code : String)
    (hc : code ≠ "") (msg : String) :
    (tokenHandler cfg (some code) (.throws msg)).response =
      ⟨500, Json.obj [("error",
        Json.str "Internal server error during token exchange")]⟩ ∧
    (tokenHandler cfg (some code) (.throws msg)).logged =
      ["Token exchange error: " ++ msg] := by
  constructor <;> simp [tokenHandler, jsFalsyStr, hc]

/-- Witness for C4 (amended), in non-production mode with a concrete thrown
error. -/
theorem C4_transport_error_fixed_generic_witness :
    (tokenHandler cfgEx (some "abc") (.throws "boom")).response =
      ⟨500, Json.obj [("error",
        Json.str "Internal server error during token exchange")]⟩ ∧
    (tokenHandler cfgEx (some "abc") (.throws "boom")).logged =
      ["Token exchange error: " ++ "boom"] :=
  C4_transport_error_fixed_generic cfgEx "abc" (by decide) "boom"

/-- Counterexample to C4 as stated: in non-production mode
(`cfgEx.isProduction = false`), a fetch that throws `"boom"` still yields
the fixed generic message, not the raw error message `"boom"`. -/
theorem C4_counterexample :
    cfgEx.isProduction = false ∧
    (tokenHandler cfgEx (some "abc") (.throws "boom")).response.status = 500 ∧
    ((tokenHandler cfgEx (some "abc") (.throws "boom")).response.body).get "error" =
      some (Json.str "Internal server error during token exchange") ∧
    ("Internal server error during token exchange" : String) ≠ "boom" := by
  exact ⟨rfl, rfl, rfl, by decide⟩

/-- C1 (amended): for every 2xx provider response whose body parses as JSON
and contains an `access_token` field, the reply to the caller is status 200
with exactly that one field, taken from the provider response; the provider
fields `refresh_token`, `token_type`, `expires_in` and `scope` are absent
from the reply. -/
theorem C1_success_reply_exact (cfg : Config) (code : String) (hc : code ≠ "")
    (r : FetchResponse) (hok : r.ok = true) (tokenData v : Json)
    (hbody : r.body = some tokenData)
    (hv : tokenData.get "access_token" = some v) :
    (tokenHandler cfg (some code) (.success r)).response =
      ⟨200, Json.obj [("access_token", v)]⟩ ∧
    ((tokenHandler cfg (some code) (.success r)).response.body).get "refresh_token" = none ∧
    ((tokenHandler cfg (some code) (.success r)).response.body).get "token_type" = none ∧
    ((tokenHandler cfg (some code) (.success r)).response.body).get "expires_in" = none ∧
    ((tokenHandler cfg (some code) (.success r)).response.body).get "scope" = none := by
  have hmain : (tokenHandler cfg (some code) (.success r)).response =
      ⟨200, Json.obj [("access_token", v)]⟩ := by
    cases tokenData with
    | null => simp [Json.get] at hv
    | bool b => simp [Json.get] at hv
    | num n => simp [Json.get] at hv
    | str s => simp [Json.get] at hv
    | arr l => simp [Json.get] at hv
    | obj fields =>
      simp [tokenHandler, jsFalsyStr, hc, hbody, hok, accessTokenReply, hv]
  refine ⟨hmain, ?_, ?_, ?_, ?_⟩ <;> rw [hmain] <;>
    exact Json.get_single_ne _ _ _ (by decide)

/-- Witness for C1 (amended): the end-to-end scenario of the spec — the
provider returns `{ access_token: "tok_123", refresh_token: "r1",
scope: "identify" }` and the caller receives `200 { access_token: "tok_123" }`. -/
theorem C1_success_reply_exact_witness :
    (tokenHandler cfgEx (some "abc")
        (.success ⟨200, some (Json.obj [("access_token", Json.str "tok_123"),
                                        ("refresh_token", Json.str "r1"),
                                        ("scope", Json.str "identify")])⟩)).response =
      ⟨200, Json.obj [("access_token", Json.str "tok_123")]⟩ ∧
    ((tokenHandler cfgEx (some "abc")
        (.success ⟨200, some (Json.obj [("access_token", Json.str "tok_123"),
                                        ("refresh_token", Json.str "r1"),
                                        ("scope", Json.str "identify")])⟩)).response.body).get
      "refresh_token" = none ∧
    ((tokenHandler cfgEx (some "abc")
        (.success ⟨200, some (Json.obj [("access_token", Json.str "tok_123"),
                                        ("refresh_token", Json.str "r1"),
                                        ("scope", Json.str "identify")])⟩)).response.body).get
      "token_type" = none ∧
    ((tokenHandler cfgEx (some "abc")
        (.success ⟨200, some (Json.obj [("access_token", Json.str "tok_123"),
                                        ("refresh_token", Json.str "r1"),
                                        ("scope", Json.str "identify")])⟩)).response.body).get
      "expires_in" = none ∧
    ((tokenHandler cfgEx (some "abc")
        (.success ⟨200, some (Json.obj [("access_token", Json.str "tok_123"),
                                        ("refresh_token", Json.str "r1"),
                                        ("scope", Json.str "identify")])⟩)).response.body).get
      "scope" = none :=
  C1_success_reply_exact cfgEx "abc" (by decide)
    ⟨200, some (Json.obj [("access_token", Json.str "tok_123"),
                          ("refresh_token", Json.str "r1"),
                          ("scope", Json.str "identify")])⟩
    (by decide) _ _ rfl rfl

/-- Counterexample to C1 as stated: a 2xx provider response whose parsed
body lacks `access_token` (here `{ refresh_token: "r1" }`) is answered with
status 200 and an empty body `{}`, which does not contain an `access_token`
field — so not every 2xx provider response yields a reply with exactly the
one field `access_token`. -/
theorem C1_counterexample :
    (tokenHandler cfgEx (some "abc")
        (.success ⟨200, some (Json.obj [("refresh_token", Json.str "r1")])⟩)).response =
      ⟨200, Json.obj []⟩ ∧
    ((tokenHandler cfgEx (some "abc")
        (.success ⟨200, some (Json.obj [("refresh_token", Json.str "r1")])⟩)).response.body).get
      "access_token" = none := by
  exact ⟨rfl, rfl⟩

/-- C10: the token endpoint does not validate a successful provider
payload — for every 2xx provider response whose parsed body is an object
with no `access_token` field, the endpoint still answers 200, with a body
containing no `access_token` (the `undefined` value is dropped by
serialization, leaving `{}`), rather than an error. -/
theorem C10_no_payload_validation (cfg : Config) (code : String) (hc : code ≠ "")
    (r : FetchResponse) (hok : r.ok = true) (fields : List (String × Json))
    (hbody : r.body = some (Json.obj fields))
    (hmiss : (Json.obj fields).get "access_token" = none) :
    (tokenHandler cfg (some code) (.success r)).response = ⟨200, Json.obj []⟩ ∧
    ((tokenHandler cfg (some code) (.success r)).response.body).get "access_token" = none := by
  have hmain : (tokenHandler cfg (some code) (.success r)).response = ⟨200, Json.obj []⟩ := by
    simp [tokenHandler, jsFalsyStr, hc, hbody, hok, accessTokenReply, hmiss]
  exact ⟨hmain, by rw [hmain]; rfl⟩

/-- Witness for C10: a provider 200 with body `{ refresh_token: "r1" }` is
answered 200 with body `{}`. -/
theorem C10_no_payload_validation_witness :
    (tokenHandler cfgEx (some "code1")
        (.success ⟨200, some (Json.obj [("refresh_token", Json.str "r1")])⟩)).response =
      ⟨200, Json.obj []⟩ ∧
    ((tokenHandler cfgEx (some "code1")
        (.success ⟨200, some (Json.obj [("refresh_token", Json.str "r1")])⟩)).response.body).get
      "access_token" = none :=
  C10_no_payload_validation cfgEx "code1" (by decide)
    ⟨200, some (Json.obj [("refresh_token", Json.str "r1")])⟩ (by decide)
    [("refresh_token", Json.str "r1")] rfl rfl

/-- C5: for every user ID string that `BigInt` accepts (value `n`), the
default-avatar index is `n % 5`, computed with arbitrary-precision
arithmetic — verified in particular at the ID `9007199254740993 = 2^53 + 1`,
beyond the float-exact range, whose index is 3 (a float64 round of that ID
would give `9007199254740992`, index 2). -/
theorem C5_default_avatar_index (userId : String) (n : Nat)
    (hp : parseBigInt userId = some n) :
    getDefaultAvatarIndex userId = some (n % 5) ∧
    getDefaultAvatarIndex "9007199254740993" = some 3 ∧
    9007199254740993 % 5 = 3 ∧ 2 ^ 53 < 9007199254740993 := by
  refine ⟨by simp [getDefaultAvatarIndex, hp], by decide, by decide, by decide⟩

/-- Witness for C5 at the ID `"10"`. -/
theorem C5_default_avatar_index_witness :
    getDefaultAvatarIndex "10" = some (10 % 5) ∧
    getDefaultAvatarIndex "9007199254740993" = some 3 ∧
    9007199254740993 % 5 = 3 ∧ 2 ^ 53 < 9007199254740993 :=
  C5_default_avatar_index "10" 10 (by decide)

/-- C6 (amended): the default-avatar URL built for a null hash carries no
`size` query parameter; for every non-null, NON-EMPTY hash the built URL
always carries a `size` query parameter, whose value is 128 when the caller
omits the argument.  (The empty-string hash is non-null yet falls into the
default branch — see the counterexample.) -/
theorem C6_avatar_url_size_param (userId : String) (n : Nat)
    (hp : parseBigInt userId = some n) (h : String) (hh : h ≠ "")
    (size : Option Nat) :
    (∃ url, getUserAvatarUrl userId none size = some url ∧
      strContains url "?size=" = false) ∧
    (∀ url, getUserAvatarUrl userId (some h) size = some url →
      strContains url "?size=" = true) ∧
    getUserAvatarUrl userId (some h) none =
      some ("https://cdn.discordapp.com/avatars/" ++ userId ++ "/" ++ h ++
        ".webp?size=128") := by
  have hhash : ∀ sz : Option Nat, getUserAvatarUrl userId (some h) sz =
      some ("https://cdn.discordapp.com/avatars/" ++ userId ++ "/" ++ h ++
        ".webp?size=" ++ Nat.repr (sz.getD 128)) := by
    intro sz
    simp [getUserAvatarUrl, jsFalsyStr, hh]
  refine ⟨?_, ?_, ?_⟩
  · refine ⟨"https://cdn.discordapp.com/embed/avatars/" ++ Nat.repr (n % 5) ++ ".png",
      ?_, ?_⟩
    · simp [getUserAvatarUrl, getDefaultAvatarIndex, jsFalsyStr, hp]
    · have h5 : n % 5 < 5 := Nat.mod_lt n (by norm_num)
      set i := n % 5 with hi
      interval_cases i <;> decide
  · intro url hurl
    rw [hhash size] at hurl
    injection hurl with hurl
    subst hurl
    apply strContains_append_of_left
    apply strContains_append_of_right
    decide
  · rw [hhash none]
    have hx : ("https://cdn.discordapp.com/avatars/" ++ userId ++ "/" ++ h ++ ".webp?size=")
        ++ Nat.repr ((none : Option Nat).getD 128) =
        "https://cdn.discordapp.com/avatars/" ++ userId ++ "/" ++ h ++ ".webp?size=128" := by
      simp only [String.append_assoc]
      rw [show (".webp?size=" ++ Nat.repr ((none : Option Nat).getD 128) : String) =
        ".webp?size=128" from by decide]
    rw [hx]

/-- Witness for C6 (amended) at user ID `"1"`, hash `"abc123"`, omitted
size. -/
theorem C6_avatar_url_size_param_witness :
    (∃ url, getUserAvatarUrl "1" none none = some url ∧
      strContains url "?size=" = false) ∧
    (∀ url, getUserAvatarUrl "1" (some "abc123") none = some url →
      strContains url "?size=" = true) ∧
    getUserAvatarUrl "1" (some "abc123") none =
      some ("https://cdn.discordapp.com/avatars/" ++ "1" ++ "/" ++ "abc123" ++
        ".webp?size=128") :=
  C6_avatar_url_size_param "1" 1 (by decide) "abc123" (by decide) none

/-- Counterexample to C6 as stated: the empty-string hash is non-null, yet
`getUserAvatarUrl "1" (some "") none` takes the default-avatar branch —
the JavaScript test `!avatarHash` is truthiness, not a null check — and the
returned URL has no `size` query parameter at all. -/
theorem C6_counterexample :
    getUserAvatarUrl "1" (some "") none =
      some "https://cdn.discordapp.com/embed/avatars/1.png" ∧
    strContains "https://cdn.discordapp.com/embed/avatars/1.png" "?size=" = false := by
  exact ⟨by decide, by decide⟩

/-- C7 (amended): a request matching none of the registered routes — where
a route declared with `app.get` matches both `GET` and `HEAD` — receives
the fixed 404 response `{ error: "Not found" }` in non-production mode; in
production mode this holds only for requests the SPA fallback does not
intercept — an unmatched `GET` or `HEAD` request (with no static file at
its path) is answered by the catch-all `app.get('*')` route with
`index.html`, never by the 404 handler. -/
theorem C7_unmatched_route_handling (staticHas : String → Bool)
    (m : Method) (p : String)
    (h1 : ¬((m = .GET ∨ m = .HEAD) ∧ p = "/api/health"))
    (h2 : ¬(m = .POST ∧ p = "/api/token"))
    (h3 : ¬((m = .GET ∨ m = .HEAD) ∧ p = "/api/config")) :
    dispatch false staticHas m p = .notFound ∧
    (m ≠ .GET → m ≠ .HEAD → dispatch true staticHas m p = .notFound) ∧
    (m = .GET ∨ m = .HEAD → staticHas p = false →
      dispatch true staticHas m p = .spaFallback) ∧
    notFoundHandler = ⟨404, Json.obj [("error", Json.str "Not found")]⟩ := by
  refine ⟨?_, ?_, ?_, rfl⟩
  · simp [dispatch, h1, h2, h3]
  · intro hG hH
    simp [dispatch, h1, h2, h3, hG, hH]
  · intro hm hS
    rcases hm with hm | hm <;> subst hm
    · have hp1 : p ≠ "/api/health" := fun hp => h1 ⟨Or.inl rfl, hp⟩
      have hp3 : p ≠ "/api/config" := fun hp => h3 ⟨Or.inl rfl, hp⟩
      simp [dispatch, hp1, hp3, hS]
    · have hp1 : p ≠ "/api/health" := fun hp => h1 ⟨Or.inr rfl, hp⟩
      have hp3 : p ≠ "/api/config" := fun hp => h3 ⟨Or.inr rfl, hp⟩
      simp [dispatch, hp1, hp3, hS]

/-- Witness for C7 (amended): a `POST /missing` request, with no static
file present, gets the 404 response in both modes. -/
theorem C7_unmatched_route_handling_witness :
    dispatch false (fun _ => false) .POST "/missing" = .notFound ∧
    (Method.POST ≠ .GET → Method.POST ≠ .HEAD →
      dispatch true (fun _ => false) .POST "/missing" = .notFound) ∧
    (Method.POST = .GET ∨ Method.POST = .HEAD → (fun _ => false) "/missing" = false →
      dispatch true (fun _ => false) .POST "/missing" = .spaFallback) ∧
    notFoundHandler = ⟨404, Json.obj [("error", Json.str "Not found")]⟩ :=
  C7_unmatched_route_handling (fun _ => false) .POST "/missing"
    (by decide) (by decide) (by decide)

/-- Counterexample to C7 as stated: with production mode active, the
unmatched request `GET /missing` is routed to the SPA fallback (which sends
`index.html`), not to the 404 handler. -/
theorem C7_counterexample :
    dispatch true (fun _ => false) .GET "/missing" = .spaFallback ∧
    Routed.spaFallback ≠ Routed.notFound := by
  exact ⟨by decide, by decide⟩

/-- The response the token endpoint sends to its caller does not depend on
the configuration at all (in particular not on the client secret): only the
`code` field and the provider outcome determine it. -/
theorem tokenHandler_response_config_free (cfg cfg' : Config)
    (code : Option String) (fetch : FetchOutcome) :
    (tokenHandler cfg code fetch).response = (tokenHandler cfg' code fetch).response := by
  unfold tokenHandler
  by_cases hf : jsFalsyStr code = true
  · simp [hf]
  · simp only [Bool.not_eq_true] at hf
    simp only [hf, Bool.false_eq_true, if_false]
    cases fetch with
    | throws msg => rfl
    | success r =>
      obtain ⟨st, body⟩ := r
      by_cases hok : FetchResponse.ok ⟨st, body⟩ = true
      · simp only [hok, if_true]
        cases body with
        | none => rfl
        | some j => cases j <;> rfl
      · simp only [Bool.not_eq_true] at hok
        simp [hok]

/-- Whenever the `code` field is non-falsy, the token endpoint makes
exactly the one outbound call whose form-encoded body is
`providerRequestParams` — in every branch of the exchange. -/
theorem tokenHandler_providerCall_eq (cfg : Config) (code : Option String)
    (fetch : FetchOutcome) (h : jsFalsyStr code = false) :
    (tokenHandler cfg code fetch).providerCall =
      some (providerRequestParams cfg (code.getD "")) := by
  unfold tokenHandler
  simp only [h, Bool.false_eq_true, if_false]
  cases fetch with
  | throws msg => rfl
  | success r =>
    obtain ⟨st, body⟩ := r
    by_cases hok : FetchResponse.ok ⟨st, body⟩ = true
    · simp only [hok, if_true]
      cases body with
      | none => rfl
      | some j => cases j <;> rfl
    · simp only [Bool.not_eq_true] at hok
      simp [hok]

/-- C8: changing the client secret changes no response delivered to the
client — the reply of the token endpoint and the replies of the health,
config, 404 and global-error handlers are all unchanged — while the secret
does appear, as the `client_secret` field, in the form-encoded request the
server sends to the identity provider whenever that call is made. -/
theorem C8_secret_noninterference (cfg : Config) (s : String)
    (code : Option String) (fetch : FetchOutcome) (ts msg : String) :
    (tokenHandler { cfg with clientSecret := s } code fetch).response =
      (tokenHandler cfg code fetch).response ∧
    healthHandler { cfg with clientSecret := s } ts = healthHandler cfg ts ∧
    configHandler { cfg with clientSecret := s } = configHandler cfg ∧
    globalErrorHandler { cfg with clientSecret := s } msg =
      globalErrorHandler cfg msg ∧
    notFoundHandler = ⟨404, Json.obj [("error", Json.str "Not found")]⟩ ∧
    (jsFalsyStr code = false →
      (tokenHandler cfg code fetch).providerCall =
        some (providerRequestParams cfg (code.getD "")) ∧
      ("client_secret", cfg.clientSecret) ∈ providerRequestParams cfg (code.getD "")) := by
  refine ⟨tokenHandler_response_config_free _ _ _ _, rfl, rfl, rfl, rfl,
    fun h => ⟨tokenHandler_providerCall_eq cfg code fetch h, ?_⟩⟩
  simp [providerRequestParams]

/-- Witness for C8 at a concrete secret change, request and outcome. -/
theorem C8_secret_noninterference_witness :
    (tokenHandler { cfgEx with clientSecret := "other" } (some "abc") (.throws "x")).response =
      (tokenHandler cfgEx (some "abc") (.throws "x")).response ∧
    (tokenHandler cfgEx (some "abc") (.throws "x")).providerCall =
      some (providerRequestParams cfgEx ((some "abc").getD "")) ∧
    ("client_secret", cfgEx.clientSecret) ∈ providerRequestParams cfgEx ((some "abc").getD "") :=
  ⟨(C8_secret_noninterference cfgEx "other" (some "abc") (.throws "x") "ts" "m").1,
   ((C8_secret_noninterference cfgEx "other" (some "abc") (.throws "x") "ts" "m").2.2.2.2.2
      (by decide)).1,
   ((C8_secret_noninterference cfgEx "other" (some "abc") (.throws "x") "ts" "m").2.2.2.2.2
      (by decide)).2⟩

/-- C9: if the `POST /api/token` step of `setupDiscordSdk` returns a
non-2xx status, the sequence throws a descriptive error before the access
token is assigned: the module state is exactly the input state — in
particular, started from the initial state (`currentUser = null`,
`accessToken = null`) both stay null — and the `authenticate` step is never
invoked. -/
theorem C9_token_failure_short_circuit (env : SdkEnv) (st : ClientState)
    (hr : env.readyResult = .ok ()) (c : String)
    (ha : env.authorizeResult = .ok c) (r : FetchResponse)
    (hf : env.tokenFetch = .success r) (hok : r.ok = false) :
    setupDiscordSdk env st =
      ⟨.error ("Failed to exchange code for token: " ++ Nat.repr r.status),
       st, false⟩ ∧
    setupDiscordSdk env ⟨none, none⟩ =
      ⟨.error ("Failed to exchange code for token: " ++ Nat.repr r.status),
       ⟨none, none⟩, false⟩ := by
  constructor <;> simp [setupDiscordSdk, hr, ha, hf, hok]

/-- Witness for C9: a concrete run whose token exchange returns 500. -/
theorem C9_token_failure_short_circuit_witness :
    setupDiscordSdk ⟨.ok (), .ok "authcode", .success ⟨500, none⟩, .error "never"⟩
        ⟨none, none⟩ =
      ⟨.error ("Failed to exchange code for token: " ++ Nat.repr 500),
       ⟨none, none⟩, false⟩ :=
  (C9_token_failure_short_circuit
    ⟨.ok (), .ok "authcode", .success ⟨500, none⟩, .error "never"⟩
    ⟨none, none⟩ rfl "authcode" rfl ⟨500, none⟩ rfl (by decide)).1
